import Mathlib

/-!
Verification development for the auto business report sender
(`src/report_sender.py`).  The program fetches spreadsheet rows, builds an
HTML report (`build_report`) and emails it.  This file gives a shallow
embedding of the pure computations of `build_report` and of the top-level
fetch/build/send control flow, and proves the specification's claims about
them.

Modelling choices:
* a spreadsheet `Record` is an ordered association list of column name to
  cell text (the spec's data model: text keys, text values, order kept);
* Python's `int(...)` and `float(...)` coercions are embedded as parsers
  returning `Option`; a `float` literal is first parsed into an exact
  decimal literal structure `DecLit` and converted to `ℚ` (the values the
  program actually sums are decimal literals, which `ℚ` represents
  exactly);
* the `try/except` block of `build_report` becomes a `match` on the two
  fallible coercion sweeps: if either fails the whole summary is zeroed,
  exactly as the exception handler does;
* the f-string HTML template is embedded as the concatenation of its
  literal segments (`tpl0` … `tpl7`, transcribed verbatim from the source)
  with the interpolated values in between;
* Python's `f"{x:,.2f}"` formatting is embedded as `formatFixed2`:
  round-half-even to cents, digits grouped in threes by commas, exactly
  two fractional digits.
-/

namespace AutoReport

/-! ## Records (spreadsheet rows) -/

/-- One spreadsheet row: an ordered mapping from column name to cell text,
as returned by `sheet.get_all_records()`. -/
structure Record where
  entries : List (String × String)
deriving DecidableEq

/-- Python's `row.get(k, d)`: the value of the first entry whose key is `k`,
else the default `d`. -/
def Record.getD (r : Record) (k d : String) : String :=
  match r.entries.find? (fun kv => kv.1 = k) with
  | some kv => kv.2
  | none => d

/-- Python's `row.keys()` (in insertion order). -/
def Record.keys (r : Record) : List String := r.entries.map Prod.fst

/-- Python's `row.values()` (in insertion order). -/
def Record.vals (r : Record) : List String := r.entries.map Prod.snd

/-! ## Python numeric coercions -/

/-- Decimal digit test, as in `int()` / `float()` literal syntax. -/
def isDigitCh (c : Char) : Bool := 48 ≤ c.toNat ∧ c.toNat ≤ 57

/-- Value of a decimal digit string (most significant first). -/
def digitsToNat (l : List Char) : Nat :=
  l.foldl (fun a c => 10 * a + (c.toNat - 48)) 0

/-- Leading and trailing whitespace removed, as Python's coercions do. -/
def stripBlanksL (l : List Char) : List Char :=
  ((l.dropWhile Char.isWhitespace).reverse.dropWhile Char.isWhitespace).reverse

/-- A nonempty all-digit string parsed to its value, else `none`. -/
def parseDigits? (l : List Char) : Option Nat :=
  if l ≠ [] ∧ l.all isDigitCh then some (digitsToNat l) else none

/-- Python's `int(s)` on a string: optional sign, then decimal digits;
anything else raises, which we model as `none`. -/
def pyIntOfStr? (s : String) : Option Int :=
  match stripBlanksL s.data with
  | '+' :: t => (parseDigits? t).map fun n => (n : Int)
  | '-' :: t => (parseDigits? t).map fun n => -(n : Int)
  | t => (parseDigits? t).map fun n => (n : Int)

/-- An exact decimal float literal: `sign * (ipart + fpart / 10 ^ flen) * 10 ^ exp`,
the parse result of Python's `float(s)` on a finite decimal string. -/
structure DecLit where
  sign : Int
  ipart : Nat
  fpart : Nat
  flen : Nat
  exp : Int
deriving DecidableEq

/-- The rational value of a decimal float literal. -/
def DecLit.toRat (d : DecLit) : ℚ :=
  (d.sign : ℚ) * ((d.ipart : ℚ) + (d.fpart : ℚ) / 10 ^ d.flen) * 10 ^ d.exp

/-- A span of decimal digits and the rest. -/
def spanDigits (l : List Char) : List Char × List Char :=
  (l.takeWhile isDigitCh, l.dropWhile isDigitCh)

/-- The exponent part of a float literal (after `e`/`E`): optional sign and
digits. -/
def parseExpPart? (l : List Char) : Option Int :=
  match l with
  | '+' :: t => (parseDigits? t).map fun n => (n : Int)
  | '-' :: t => (parseDigits? t).map fun n => -(n : Int)
  | t => (parseDigits? t).map fun n => (n : Int)

/-- The body of a float literal after the sign: digits, optional point and
fraction digits, optional exponent. At least one digit must appear before
the exponent. -/
def parseFloatTail? (sg : Int) (l : List Char) : Option DecLit :=
  let ip := (spanDigits l).1
  let r1 := (spanDigits l).2
  let fp := match r1 with
    | '.' :: t => (spanDigits t).1
    | _ => []
  let r2 := match r1 with
    | '.' :: t => (spanDigits t).2
    | _ => r1
  if ip = [] ∧ fp = [] then none
  else
    match r2 with
    | [] => some ⟨sg, digitsToNat ip, digitsToNat fp, fp.length, 0⟩
    | 'e' :: t => (parseExpPart? t).map fun e =>
        ⟨sg, digitsToNat ip, digitsToNat fp, fp.length, e⟩
    | 'E' :: t => (parseExpPart? t).map fun e =>
        ⟨sg, digitsToNat ip, digitsToNat fp, fp.length, e⟩
    | _ => none

/-- Python's `float(s)` on a finite decimal string, parsed to an exact
decimal literal (`none` models the `ValueError` of a non-numeric string). -/
def pyFloatLit? (s : String) : Option DecLit :=
  match stripBlanksL s.data with
  | '+' :: t => parseFloatTail? 1 t
  | '-' :: t => parseFloatTail? (-1) t
  | t => parseFloatTail? 1 t

/-- Python's `float(s)` as a rational value. -/
def pyFloatQ? (s : String) : Option ℚ := (pyFloatLit? s).map DecLit.toRat

/-! ## The summary computation of `build_report` -/

/-- Lower-casing of an ASCII letter, as `str.lower()` acts on the letters
involved here. -/
def lowerChar (c : Char) : Char :=
  if 65 ≤ c.toNat ∧ c.toNat ≤ 90 then Char.ofNat (c.toNat + 32) else c

/-- `str.lower()` on a cell value. -/
def lowerStr (s : String) : String := String.mk (s.data.map lowerChar)

/-- The row predicate of the completed-orders count:
`str(row.get("Status", "")).lower() == "completed"`. -/
def isCompletedRow (r : Record) : Bool :=
  lowerStr (r.getD "Status" "") = "completed"

/-- The `Sales` coercions of `sum(int(row.get("Sales", 0)) for row in data)`:
all per-row values if every coercion succeeds, `none` if any raises. -/
def salesInts : List Record → Option (List Int)
  | [] => some []
  | r :: t =>
    match pyIntOfStr? (r.getD "Sales" "0"), salesInts t with
    | some v, some vs => some (v :: vs)
    | _, _ => none

/-- The `Revenue` coercions of `sum(float(row.get("Revenue", 0)) for row in
data)`: all per-row literals if every coercion succeeds, `none` if any
raises. -/
def revenueLits : List Record → Option (List DecLit)
  | [] => some []
  | r :: t =>
    match pyFloatLit? (r.getD "Revenue" "0"), revenueLits t with
    | some v, some vs => some (v :: vs)
    | _, _ => none

/-- `sum(1 for row in data if str(row.get("Status", "")).lower() == "completed")`. -/
def completedCount (data : List Record) : Nat := data.countP isCompletedRow

/-- The three summary metrics of the report. -/
structure ReportSummary where
  total_sales : Int
  total_revenue : ℚ
  completed_count : Nat
deriving DecidableEq

/-- The `try/except` summary block of `build_report`: the three sums, or all
three zeroed when any `Sales`/`Revenue` coercion raises. -/
def summarize (data : List Record) : ReportSummary :=
  match salesInts data, revenueLits data with
  | some ss, some rs => ⟨ss.sum, (rs.map DecLit.toRat).sum, completedCount data⟩
  | _, _ => ⟨0, 0, 0⟩

/-! ## Currency formatting: Python's `f"{x:,.2f}"` -/

/-- Banker's rounding of a rational to an integer (Python rounds floats to
the nearest representable, ties to even; on the exact decimal values here
that is round-half-even). -/
def roundHalfEven (q : ℚ) : Int :=
  if q - (⌊q⌋ : ℚ) < 1 / 2 then ⌊q⌋
  else if 1 / 2 < q - (⌊q⌋ : ℚ) then ⌊q⌋ + 1
  else if ⌊q⌋ % 2 = 0 then ⌊q⌋ else ⌊q⌋ + 1

/-- The value in cents shown by `f"{q:,.2f}"`. -/
def centsOf (q : ℚ) : Int := roundHalfEven (q * 100)

/-- Decimal digits of `n`, least significant first (`fuel ≥ n` suffices). -/
def natDecAux : Nat → Nat → List Char
  | 0, _ => []
  | _ + 1, 0 => []
  | fuel + 1, n + 1 => Char.ofNat (48 + (n + 1) % 10) :: natDecAux fuel ((n + 1) / 10)

/-- Decimal digits of `n`, least significant first; `0` prints as `"0"`. -/
def natDecRev (n : Nat) : List Char :=
  if n = 0 then ['0'] else natDecAux n n

/-- A comma after every three characters of a least-significant-first digit
list: the `,` grouping option of Python's format spec. -/
def groupRev : List Char → List Char
  | a :: b :: c :: d :: t => a :: b :: c :: ',' :: groupRev (d :: t)
  | l => l

/-- `n` in decimal with thousands separators, as `f"{n:,}"` renders it. -/
def groupDigits (n : Nat) : String :=
  String.mk (groupRev (natDecRev n)).reverse

/-- A two-digit decimal rendering of `m < 100` (the `.2` fraction part). -/
def twoDigits (m : Nat) : String :=
  String.mk [Char.ofNat (48 + m / 10 % 10), Char.ofNat (48 + m % 10)]

/-- Python's `f"{q:,.2f}"`: sign, comma-grouped units, a point and exactly
two fraction digits. -/
def formatFixed2 (q : ℚ) : String :=
  (if centsOf q < 0 then "-" else "") ++
    (groupDigits ((centsOf q).natAbs / 100) ++ ("." ++ twoDigits ((centsOf q).natAbs % 100)))

/-! ## HTML rendering of `build_report` -/

/-- `"".join(...)` over already rendered pieces. -/
def concatStrs : List String → String
  | [] => ""
  | s :: t => s ++ concatStrs t

/-- One header cell `f"<th style='...'>{col}</th>"`. -/
def thCell (col : String) : String :=
  "<th style='padding:12px 14px; text-align:left; background:#1a1a2e; color:#fff; font-weight:600;'>" ++
    (col ++ "</th>")

/-- The header row content: the first Record's keys as `<th>` cells, or the
placeholder cell when there is no data. -/
def headers : List Record → String
  | [] => "<th>No data found</th>"
  | r :: _ => concatStrs (r.keys.map thCell)

/-- One data cell `f"<td style='...'>{v}</td>"` — the value inserted as-is. -/
def cellTd (v : String) : String :=
  "<td style='padding:10px 14px; border-bottom:1px solid #eee;'>" ++ (v ++ "</td>")

/-- The joined cells of one row, over `row.values()`. -/
def rowCells (r : Record) : String := concatStrs (r.vals.map cellTd)

/-- `bg = "#f9f7f4" if i % 2 == 0 else "#ffffff"`. -/
def bgColor (i : Nat) : String := if i % 2 = 0 then "#f9f7f4" else "#ffffff"

/-- One table row `f"<tr style='background:{bg};'>{cells}</tr>"`. -/
def rowTr (i : Nat) (r : Record) : String :=
  "<tr style='background:" ++ (bgColor i ++ (";'>" ++ (rowCells r ++ "</tr>")))

/-- The rendered rows of `enumerate(data)` starting at index `i`. -/
def rowsFrom : Nat → List Record → List String
  | _, [] => []
  | i, r :: t => rowTr i r :: rowsFrom (i + 1) t

/-- The rendered rows of `enumerate(data)`. -/
def rowStrings (data : List Record) : List String := rowsFrom 0 data

/-- The `table_rows` accumulation loop (`table_rows += ...` from `""`). -/
def table_rows (data : List Record) : String :=
  (rowStrings data).foldl (fun acc s => acc ++ s) ""

/-! ### The f-string template, split at its interpolation points.
`tpl0` … `tpl7` are the literal segments of the `html = f"""…"""` template
in the source, with `<thead><tr>`, `</tr></thead>`, `<tbody>`, `</tbody>`
and the `$` before the revenue kept as separate atoms so theorems can
speak about them. -/

def tpl0 : String :=
  "\n    <!DOCTYPE html>\n    <html>\n    <head><meta charset=\"UTF-8\"/></head>\n    <body style=\"margin:0; padding:0; background:#f0ede8; font-family: 'Helvetica Neue', Arial, sans-serif;\">\n\n      <div style=\"max-width:640px; margin:32px auto; background:#fff; border-radius:8px; overflow:hidden; box-shadow:0 2px 12px rgba(0,0,0,0.08);\">\n\n        <!-- HEADER -->\n        <div style=\"background:#1a1a2e; padding:32px 36px;\">\n          <div style=\"font-size:12px; letter-spacing:0.2em; color:#7a8aaa; text-transform:uppercase; margin-bottom:8px;\">Automated Weekly Report</div>\n          <div style=\"font-size:26px; font-weight:700; color:#ffffff;\">"

def tpl1 : String :=
  "</div>\n          <div style=\"font-size:13px; color:#9aa3b8; margin-top:6px;\">Generated on "

def tpl2 : String :=
  "</div>\n        </div>\n\n        <!-- SUMMARY STATS -->\n        <div style=\"padding:28px 36px; background:#f9f7f4; border-bottom:1px solid #eee;\">\n          <div style=\"font-size:11px; letter-spacing:0.15em; color:#999; text-transform:uppercase; margin-bottom:16px;\">Summary</div>\n          <div style=\"display:flex; gap:20px; flex-wrap:wrap;\">\n\n            <div style=\"flex:1; min-width:140px; background:#fff; border-radius:6px; padding:18px 20px; border:1px solid #eee;\">\n              <div style=\"font-size:28px; font-weight:700; color:#1a1a2e;\">"

def tpl3 : String :=
  "</div>\n              <div style=\"font-size:12px; color:#999; margin-top:4px;\">Total Sales</div>\n            </div>\n\n            <div style=\"flex:1; min-width:140px; background:#fff; border-radius:6px; padding:18px 20px; border:1px solid #eee;\">\n              <div style=\"font-size:28px; font-weight:700; color:#2d6a4f;\">"

def tpl4 : String :=
  "</div>\n              <div style=\"font-size:12px; color:#999; margin-top:4px;\">Total Revenue</div>\n            </div>\n\n            <div style=\"flex:1; min-width:140px; background:#fff; border-radius:6px; padding:18px 20px; border:1px solid #eee;\">\n              <div style=\"font-size:28px; font-weight:700; color:#c8531a;\">"

def tpl5 : String :=
  "</div>\n              <div style=\"font-size:12px; color:#999; margin-top:4px;\">Completed Orders</div>\n            </div>\n\n          </div>\n        </div>\n\n        <!-- DATA TABLE -->\n        <div style=\"padding:28px 36px;\">\n          <div style=\"font-size:11px; letter-spacing:0.15em; color:#999; text-transform:uppercase; margin-bottom:16px;\">Full Data Breakdown</div>\n          <div style=\"overflow-x:auto;\">\n            <table style=\"width:100%; border-collapse:collapse; font-size:13px;\">\n              "

def tpl6 : String :=
  "\n              "

def tpl7 : String :=
  "\n            </table>\n          </div>\n        </div>\n\n        <!-- FOOTER -->\n        <div style=\"padding:20px 36px; background:#f9f7f4; border-top:1px solid #eee; text-align:center;\">\n          <div style=\"font-size:12px; color:#bbb;\">This report was generated automatically · Built by Lincoln Adura</div>\n          <div style=\"font-size:11px; color:#ccc; margin-top:4px;\">Automation Developer · Web Developer</div>\n        </div>\n\n      </div>\n    </body>\n    </html>\n    "

/-- The full f-string template applied to the already rendered interpolated
values (business name, date, the three summary figures, headers, rows). -/
def buildHtml (bn today salesStr revStr complStr hdrs rows : String) : String :=
  tpl0 ++ (bn ++ (tpl1 ++ (today ++ (tpl2 ++ (salesStr ++ (tpl3 ++ ("$" ++
    (revStr ++ (tpl4 ++ (complStr ++ (tpl5 ++ ("<thead><tr>" ++ (hdrs ++
    ("</tr></thead>" ++ (tpl6 ++ ("<tbody>" ++ (rows ++ ("</tbody>" ++ tpl7))))))))))))))))))

/-- `build_report(data)`: the HTML document, with the summary figures
formatted exactly as the f-string does (`{total_sales}`,
`${total_revenue:,.2f}`, `{completed}`).  The business name and the
build-time date are ambient inputs. -/
def build_report (bn today : String) (data : List Record) : String :=
  buildHtml bn today (toString (summarize data).total_sales)
    (formatFixed2 (summarize data).total_revenue)
    (toString (summarize data).completed_count)
    (headers data) (table_rows data)

/-! ## The top-level run (`__main__`) -/

/-- The observable milestones of one process run. -/
inductive StepEvent where
  | fetched (rows : Nat)
  | built (html : String)
  | sendAttempted
  | sent
  | failed
deriving DecidableEq

/-- The `try` block of `__main__`: `get_sheet_data()`, then
`build_report(data)`, then `send_email(html_report)`, with any raised error
caught at the top and ending the run.  The fetch outcome and whether the
SMTP send succeeds are the external inputs. -/
def runCycle (bn today : String) (fetchRes : Except String (List Record))
    (sendOk : Bool) : List StepEvent :=
  match fetchRes with
  | Except.error _ => [StepEvent.failed]
  | Except.ok data =>
    if sendOk then
      [StepEvent.fetched data.length, StepEvent.built (build_report bn today data),
        StepEvent.sendAttempted, StepEvent.sent]
    else
      [StepEvent.fetched data.length, StepEvent.built (build_report bn today data),
        StepEvent.sendAttempted, StepEvent.failed]

/-! ## Substring containment -/

/-- `pat` occurs contiguously inside `s`. -/
def strContains (s pat : String) : Prop := ∃ a b : String, s = a ++ (pat ++ b)

end AutoReport
namespace AutoReport

/-! ## Test fixtures (the spec's example rows) -/

def recA : Record := ⟨[("Item", "A"), ("Sales", "3"), ("Revenue", "10.5"), ("Status", "Completed")]⟩

def recB : Record := ⟨[("Item", "B"), ("Sales", "2"), ("Revenue", "5.0"), ("Status", "pending")]⟩

def recBadSales : Record := ⟨[("Item", "C"), ("Sales", "oops"), ("Revenue", "7"), ("Status", "Completed")]⟩

def recBadRevenue : Record := ⟨[("Item", "D"), ("Sales", "4"), ("Revenue", "n/a"), ("Status", "done")]⟩

/-! ## Lemmas -/

theorem str_empty_append (s : String) : "" ++ s = s := rfl

theorem str_append_empty (s : String) : s ++ "" = s := by
  cases s with
  | mk l => exact congrArg String.mk (List.append_nil l)

theorem strContains_self_append (p b : String) : strContains (p ++ b) p := ⟨"", b, rfl⟩

theorem strContains_cons (x : String) {s p : String} (h : strContains s p) :
    strContains (x ++ s) p := by
  obtain ⟨a, b, rfl⟩ := h
  exact ⟨x ++ a, b, (String.append_assoc x a (p ++ b)).symm⟩

theorem strContains_tail (x : String) {s p : String} (h : strContains s p) :
    strContains (s ++ x) p := by
  obtain ⟨a, b, rfl⟩ := h
  exact ⟨a, b ++ x, by simp [String.append_assoc]⟩

theorem strContains_trans {s m p : String} (h1 : strContains s m) (h2 : strContains m p) :
    strContains s p := by
  obtain ⟨a, b, rfl⟩ := h1
  obtain ⟨c, d, rfl⟩ := h2
  exact ⟨a ++ c, d ++ b, by simp [String.append_assoc]⟩

theorem strContains_glue2 (x y R : String) : strContains (x ++ (y ++ R)) (x ++ y) :=
  ⟨"", R, by rw [str_empty_append, String.append_assoc]⟩

theorem strContains_glue3 (x y z R : String) :
    strContains (x ++ (y ++ (z ++ R))) (x ++ (y ++ z)) :=
  ⟨"", R, by rw [str_empty_append, String.append_assoc, String.append_assoc]⟩

theorem strContains_concat_mem {l : List String} {x : String} (h : x ∈ l) :
    strContains (concatStrs l) x := by
  induction l with
  | nil => cases h
  | cons y t ih =>
    rcases List.mem_cons.mp h with rfl | h2
    · exact strContains_self_append x (concatStrs t)
    · exact strContains_cons y (ih h2)

theorem foldl_append_eq (l : List String) :
    ∀ acc : String, l.foldl (fun a s => a ++ s) acc = acc ++ concatStrs l := by
  induction l with
  | nil => intro acc; exact (str_append_empty acc).symm
  | cons s t ih =>
    intro acc
    simp only [List.foldl_cons, concatStrs]
    rw [ih, String.append_assoc]

theorem table_rows_eq (data : List Record) :
    table_rows data = concatStrs (rowStrings data) := by
  unfold table_rows
  rw [foldl_append_eq]
  exact str_empty_append _

theorem rowsFrom_length (l : List Record) : ∀ k, (rowsFrom k l).length = l.length := by
  induction l with
  | nil => intro k; rfl
  | cons r t ih => intro k; simp [rowsFrom, ih]

theorem rowsFrom_getD (l : List Record) :
    ∀ k i, i < l.length →
      (rowsFrom k l).getD i "" = rowTr (k + i) (l.getD i ⟨[]⟩) := by
  induction l with
  | nil => intro k i hi; cases hi
  | cons r t ih =>
    intro k i hi
    cases i with
    | zero => simp [rowsFrom]
    | succ j =>
      have hj : j < t.length := by simpa using hi
      simp only [rowsFrom, List.getD_cons_succ]
      rw [ih (k + 1) j hj]
      congr 1
      omega

theorem rowTr_mem_rowsFrom {r : Record} {l : List Record} (hr : r ∈ l) :
    ∀ k, ∃ i, rowTr i r ∈ rowsFrom k l := by
  induction l with
  | nil => cases hr
  | cons a t ih =>
    intro k
    rcases List.mem_cons.mp hr with rfl | h2
    · exact ⟨k, by simp [rowsFrom]⟩
    · obtain ⟨i, hi⟩ := ih h2 (k + 1)
      exact ⟨i, by simp [rowsFrom, hi]⟩

theorem salesInts_eq_none {data : List Record} {r : Record} (hr : r ∈ data)
    (h : pyIntOfStr? (r.getD "Sales" "0") = none) : salesInts data = none := by
  induction data with
  | nil => cases hr
  | cons a t ih =>
    rcases List.mem_cons.mp hr with rfl | h2
    · simp [salesInts, h]
    · cases h1 : pyIntOfStr? (a.getD "Sales" "0") with
      | none => simp [salesInts, h1]
      | some v => simp [salesInts, h1, ih h2]

theorem revenueLits_eq_none {data : List Record} {r : Record} (hr : r ∈ data)
    (h : pyFloatLit? (r.getD "Revenue" "0") = none) : revenueLits data = none := by
  induction data with
  | nil => cases hr
  | cons a t ih =>
    rcases List.mem_cons.mp hr with rfl | h2
    · simp [revenueLits, h]
    · cases h1 : pyFloatLit? (a.getD "Revenue" "0") with
      | none => simp [revenueLits, h1]
      | some v => simp [revenueLits, h1, ih h2]

theorem salesInts_eq_some (data : List Record)
    (h : ∀ r ∈ data, (pyIntOfStr? (r.getD "Sales" "0")).isSome = true) :
    salesInts data = some (data.map fun r => (pyIntOfStr? (r.getD "Sales" "0")).getD 0) := by
  induction data with
  | nil => rfl
  | cons a t ih =>
    obtain ⟨v, hv⟩ := Option.isSome_iff_exists.mp (h a (List.mem_cons_self a t))
    rw [List.map_cons]
    simp [salesInts, hv, ih fun r hr => h r (List.mem_cons_of_mem a hr)]

theorem revenueLits_eq_some (data : List Record)
    (h : ∀ r ∈ data, (pyFloatLit? (r.getD "Revenue" "0")).isSome = true) :
    revenueLits data
      = some (data.map fun r => (pyFloatLit? (r.getD "Revenue" "0")).getD ⟨1, 0, 0, 0, 0⟩) := by
  induction data with
  | nil => rfl
  | cons a t ih =>
    obtain ⟨v, hv⟩ := Option.isSome_iff_exists.mp (h a (List.mem_cons_self a t))
    rw [List.map_cons]
    simp [revenueLits, hv, ih fun r hr => h r (List.mem_cons_of_mem a hr)]


theorem contains_table_rows (bn today : String) (data : List Record) :
    strContains (build_report bn today data) (table_rows data) := by
  unfold build_report buildHtml
  iterate 17 apply strContains_cons
  exact strContains_self_append _ _

theorem contains_header_block (bn today : String) (data : List Record) :
    strContains (build_report bn today data)
      ("<thead><tr>" ++ (headers data ++ "</tr></thead>")) := by
  unfold build_report buildHtml
  iterate 12 apply strContains_cons
  exact strContains_glue3 _ _ _ _

theorem contains_tbody_block (bn today : String) (data : List Record) :
    strContains (build_report bn today data)
      ("<tbody>" ++ (table_rows data ++ "</tbody>")) := by
  unfold build_report buildHtml
  iterate 16 apply strContains_cons
  exact strContains_glue3 _ _ _ _

theorem contains_dollar_revenue (bn today : String) (data : List Record) :
    strContains (build_report bn today data)
      ("$" ++ formatFixed2 (summarize data).total_revenue) := by
  unfold build_report buildHtml
  iterate 7 apply strContains_cons
  exact strContains_glue2 _ _ _

theorem contains_sales_str (bn today : String) (data : List Record) :
    strContains (build_report bn today data) (toString (summarize data).total_sales) := by
  unfold build_report buildHtml
  iterate 5 apply strContains_cons
  exact strContains_self_append _ _

theorem contains_completed_str (bn today : String) (data : List Record) :
    strContains (build_report bn today data) (toString (summarize data).completed_count) := by
  unfold build_report buildHtml
  iterate 10 apply strContains_cons
  exact strContains_self_append _ _

theorem contains_cellTd (bn today : String) {data : List Record} {r : Record}
    (hr : r ∈ data) {v : String} (hv : v ∈ r.vals) :
    strContains (build_report bn today data) (cellTd v) := by
  obtain ⟨i, hi⟩ := rowTr_mem_rowsFrom hr 0
  have h1 : strContains (build_report bn today data) (table_rows data) :=
    contains_table_rows bn today data
  have h2 : strContains (table_rows data) (rowTr i r) := by
    rw [table_rows_eq]
    exact strContains_concat_mem hi
  have h3 : strContains (rowTr i r) (cellTd v) := by
    unfold rowTr
    iterate 3 apply strContains_cons
    apply strContains_tail
    unfold rowCells
    exact strContains_concat_mem (List.mem_map_of_mem cellTd hv)
  exact strContains_trans (strContains_trans h1 h2) h3


theorem natDecAux_lt (fuel : Nat) : ∀ n, n ≤ fuel → n < 10 ^ (natDecAux fuel n).length := by
  induction fuel with
  | zero =>
    intro n hn
    simp only [natDecAux, List.length_nil, pow_zero]
    omega
  | succ f ih =>
    intro n hn
    match n with
    | 0 => simp [natDecAux]
    | m + 1 =>
      have h1 : (m + 1) / 10 ≤ f := by
        have := Nat.div_lt_self (Nat.succ_pos m) (by norm_num : 1 < 10)
        omega
      have h2 := ih ((m + 1) / 10) h1
      simp only [natDecAux, List.length_cons]
      rw [pow_succ]
      have hdm := Nat.div_add_mod (m + 1) 10
      have hlt := Nat.mod_lt (m + 1) (by norm_num : 0 < 10)
      omega

theorem natDecRev_len_ge_four {n : Nat} (h : 1000 ≤ n) : 4 ≤ (natDecRev n).length := by
  have h0 : n ≠ 0 := by omega
  rw [natDecRev, if_neg h0]
  have h1 := natDecAux_lt n n le_rfl
  by_contra hlen
  push_neg at hlen
  have h2 : (10 : ℕ) ^ (natDecAux n n).length ≤ 10 ^ 3 :=
    Nat.pow_le_pow_right (by norm_num) (by omega)
  norm_num at h2
  omega

theorem comma_mem_groupRev : ∀ {l : List Char}, 4 ≤ l.length → ',' ∈ groupRev l := by
  intro l h
  match l with
  | a :: b :: c :: d :: t => simp [groupRev]
  | [] => simp at h
  | [a] => simp at h
  | [a, b] => simp at h
  | [a, b, c] => simp at h

theorem comma_mem_groupDigits {n : Nat} (h : 1000 ≤ n) : ',' ∈ (groupDigits n).data := by
  show ',' ∈ (groupRev (natDecRev n)).reverse
  rw [List.mem_reverse]
  exact comma_mem_groupRev (natDecRev_len_ge_four h)

theorem floor_le_roundHalfEven (q : ℚ) : ⌊q⌋ ≤ roundHalfEven q := by
  unfold roundHalfEven
  repeat' split
  all_goals omega

theorem centsOf_ge {q : ℚ} (h : 1000 ≤ q) : 100000 ≤ centsOf q := by
  have h1 : (100000 : ℚ) ≤ q * 100 := by linarith
  have h2 : (100000 : ℤ) ≤ ⌊q * 100⌋ := Int.le_floor.mpr (by exact_mod_cast h1)
  calc (100000 : ℤ) ≤ ⌊q * 100⌋ := h2
    _ ≤ roundHalfEven (q * 100) := floor_le_roundHalfEven _

theorem comma_in_revenue_group {q : ℚ} (h : 1000 ≤ q) :
    ',' ∈ (groupDigits ((centsOf q).natAbs / 100)).data := by
  apply comma_mem_groupDigits
  have := centsOf_ge h
  omega

theorem twoDigits_length (m : Nat) : (twoDigits m).length = 2 := rfl

theorem centsOf_zero : centsOf (0 : ℚ) = 0 := by
  unfold centsOf roundHalfEven
  rw [show ((0 : ℚ) * 100) = ((0 : ℤ) : ℚ) from by norm_num, Int.floor_intCast]
  norm_num

theorem formatFixed2_zero : formatFixed2 0 = "0.00" := by
  simp only [formatFixed2, centsOf_zero]
  decide

theorem centsOf_1234p5 : centsOf (2469 / 2 : ℚ) = 123450 := by
  unfold centsOf roundHalfEven
  rw [show ((2469 / 2 : ℚ) * 100) = ((123450 : ℤ) : ℚ) from by norm_num, Int.floor_intCast]
  norm_num

theorem formatFixed2_1234p5 : formatFixed2 (2469 / 2 : ℚ) = "1,234.50" := by
  simp only [formatFixed2, centsOf_1234p5]
  decide


/-- C1: if any Record of the sequence has a non-numeric `Sales` or `Revenue`
value, the exception handler of `build_report` zeroes the whole summary:
`total_sales = 0`, `total_revenue = 0` and `completed_count = 0`. -/
theorem c1_bad_cell_zeroes_summary (data : List Record)
    (h : ∃ r ∈ data, pyIntOfStr? (r.getD "Sales" "0") = none ∨
      pyFloatQ? (r.getD "Revenue" "0") = none) :
    summarize data = ⟨0, 0, 0⟩ := by
  obtain ⟨r, hr, hcase⟩ := h
  rcases hcase with hs | hv
  · simp [summarize, salesInts_eq_none hr hs]
  · have hlit : pyFloatLit? (r.getD "Revenue" "0") = none := by
      cases h1 : pyFloatLit? (r.getD "Revenue" "0") with
      | none => rfl
      | some d => rw [pyFloatQ?, h1] at hv; cases hv
    cases hsi : salesInts data with
    | none => simp [summarize, hsi]
    | some ss => simp [summarize, hsi, revenueLits_eq_none hr hlit]

/-- Witness for C1 at a concrete two-row sequence whose second row has the
non-numeric `Sales` value `"oops"`. -/
theorem c1_witness : summarize [recA, recBadSales] = ⟨0, 0, 0⟩ :=
  c1_bad_cell_zeroes_summary [recA, recBadSales]
    ⟨recBadSales, by simp, Or.inl (by decide)⟩

/-- C2: when every Record's `Sales` value coerces to an integer and every
`Revenue` value coerces to a number (a missing value defaulting to `0`), the
summary's `total_sales` is the arithmetic sum of the integer-coerced `Sales`
values and `total_revenue` is the arithmetic sum of the number-coerced
`Revenue` values. -/
theorem c2_all_numeric_sums (data : List Record)
    (hs : ∀ r ∈ data, (pyIntOfStr? (r.getD "Sales" "0")).isSome = true)
    (hr : ∀ r ∈ data, (pyFloatQ? (r.getD "Revenue" "0")).isSome = true) :
    (summarize data).total_sales
        = (data.map fun r => (pyIntOfStr? (r.getD "Sales" "0")).getD 0).sum ∧
    (summarize data).total_revenue
        = (data.map fun r => (pyFloatQ? (r.getD "Revenue" "0")).getD 0).sum := by
  have hr' : ∀ r ∈ data, (pyFloatLit? (r.getD "Revenue" "0")).isSome = true := by
    intro r hmem
    have h1 := hr r hmem
    cases h2 : pyFloatLit? (r.getD "Revenue" "0") with
    | none => rw [pyFloatQ?, h2] at h1; cases h1
    | some d => rfl
  rw [summarize, salesInts_eq_some data hs, revenueLits_eq_some data hr']
  refine ⟨rfl, ?_⟩
  show ((data.map fun r => (pyFloatLit? (r.getD "Revenue" "0")).getD ⟨1, 0, 0, 0, 0⟩).map
      DecLit.toRat).sum = _
  rw [List.map_map]
  apply congrArg List.sum
  apply List.map_congr_left
  intro r hmem
  obtain ⟨d, hd⟩ := Option.isSome_iff_exists.mp (hr' r hmem)
  simp [hd, pyFloatQ?, Function.comp]

/-- Witness for C2 at the spec's two-row fixture (`Sales` 3 and 2,
`Revenue` 10.5 and 5.0). -/
theorem c2_witness :
    (summarize [recA, recB]).total_sales
        = ([recA, recB].map fun r => (pyIntOfStr? (r.getD "Sales" "0")).getD 0).sum ∧
    (summarize [recA, recB]).total_revenue
        = ([recA, recB].map fun r => (pyFloatQ? (r.getD "Revenue" "0")).getD 0).sum :=
  c2_all_numeric_sums [recA, recB] (by decide) (by decide)

/-- C3: when the coercion fallback does not trigger, `completed_count` is
the number of Records whose `Status` value, lower-cased, equals
`"completed"`. -/
theorem c3_completed_count (data : List Record)
    (hs : (salesInts data).isSome = true) (hr : (revenueLits data).isSome = true) :
    (summarize data).completed_count
      = (data.filter fun r => lowerStr (r.getD "Status" "") = "completed").length := by
  obtain ⟨ss, h1⟩ := Option.isSome_iff_exists.mp hs
  obtain ⟨rs, h2⟩ := Option.isSome_iff_exists.mp hr
  simp [summarize, h1, h2, completedCount, List.countP_eq_length_filter]
  rfl

/-- Witness for C3 at the spec's two-row fixture (one `Completed`, one
`pending` row). -/
theorem c3_witness :
    (summarize [recA, recB]).completed_count
      = ([recA, recB].filter fun r => lowerStr (r.getD "Status" "") = "completed").length :=
  c3_completed_count [recA, recB] (by decide) (by decide)

/-- C4: in the top-level run, an email send happens only when the fetch
succeeded and the report was built; a fetch failure means the send is never
attempted, and a sent report implies the full fetch, build, send cycle in
that order. -/
theorem c4_send_only_after_fetch_and_build (bn today : String)
    (f : Except String (List Record)) (s : Bool) :
    (StepEvent.sent ∈ runCycle bn today f s ↔ (∃ d, f = Except.ok d) ∧ s = true) ∧
    (∀ d, f = Except.ok d →
      runCycle bn today f s = [StepEvent.fetched d.length,
        StepEvent.built (build_report bn today d), StepEvent.sendAttempted,
        if s then StepEvent.sent else StepEvent.failed]) ∧
    (∀ e, f = Except.error e → StepEvent.sendAttempted ∉ runCycle bn today f s) := by
  cases f <;> cases s <;> simp [runCycle]

/-- Witness for C4: on a successful fetch with a working transport the run
reaches the sent state. -/
theorem c4_witness : StepEvent.sent ∈ runCycle "" "" (Except.ok [recA]) true :=
  ((c4_send_only_after_fetch_and_build "" "" (Except.ok [recA]) true).1).mpr
    ⟨⟨[recA], rfl⟩, rfl⟩

/-- C5: for the empty Record sequence the document holds the single
placeholder header cell `<th>No data found</th>` inside the header row and
an empty table body (zero data rows). -/
theorem c5_empty_data_placeholder (bn today : String) :
    headers [] = "<th>No data found</th>" ∧
    rowStrings [] = [] ∧
    table_rows [] = "" ∧
    strContains (build_report bn today []) "<thead><tr><th>No data found</th></tr></thead>" ∧
    strContains (build_report bn today []) "<tbody></tbody>" := by
  refine ⟨rfl, rfl, rfl, ?_, ?_⟩
  · have h := contains_header_block bn today []
    rw [show ("<thead><tr>" ++ (headers [] ++ "</tr></thead>") : String)
        = "<thead><tr><th>No data found</th></tr></thead>" from by decide] at h
    exact h
  · have h := contains_tbody_block bn today []
    rw [show ("<tbody>" ++ (table_rows [] ++ "</tbody>") : String)
        = "<tbody></tbody>" from by decide] at h
    exact h


theorem rowTr_even {i : Nat} (h : i % 2 = 0) (r : Record) :
    rowTr i r = "<tr style='background:#f9f7f4;'>" ++ (rowCells r ++ "</tr>") := by
  unfold rowTr bgColor
  rw [if_pos h, ← String.append_assoc, ← String.append_assoc]
  rfl

theorem rowTr_odd {i : Nat} (h : i % 2 = 1) (r : Record) :
    rowTr i r = "<tr style='background:#ffffff;'>" ++ (rowCells r ++ "</tr>") := by
  unfold rowTr bgColor
  rw [if_neg (by omega : ¬ i % 2 = 0), ← String.append_assoc, ← String.append_assoc]
  rfl

/-- C6: the document holds exactly one table row per Record, in sequence
order, the row at every even index shaded `#f9f7f4` and the row at every
odd index plain `#ffffff`. -/
theorem c6_rows_and_parity (bn today : String) (data : List Record) :
    (rowStrings data).length = data.length ∧
    table_rows data = concatStrs (rowStrings data) ∧
    strContains (build_report bn today data) (table_rows data) ∧
    (∀ i, i < data.length → i % 2 = 0 →
      (rowStrings data).getD i ""
        = "<tr style='background:#f9f7f4;'>" ++ (rowCells (data.getD i ⟨[]⟩) ++ "</tr>")) ∧
    (∀ i, i < data.length → i % 2 = 1 →
      (rowStrings data).getD i ""
        = "<tr style='background:#ffffff;'>" ++ (rowCells (data.getD i ⟨[]⟩) ++ "</tr>")) := by
  refine ⟨rowsFrom_length data 0, table_rows_eq data, contains_table_rows bn today data, ?_, ?_⟩
  · intro i hi he
    show (rowsFrom 0 data).getD i "" = _
    rw [rowsFrom_getD data 0 i hi, Nat.zero_add, rowTr_even he]
  · intro i hi ho
    show (rowsFrom 0 data).getD i "" = _
    rw [rowsFrom_getD data 0 i hi, Nat.zero_add, rowTr_odd ho]

/-- Witness for C6 at the two-row fixture: row 0 shaded, row 1 plain. -/
theorem c6_witness :
    (rowStrings [recA, recB]).getD 0 ""
      = "<tr style='background:#f9f7f4;'>" ++ (rowCells ([recA, recB].getD 0 ⟨[]⟩) ++ "</tr>") ∧
    (rowStrings [recA, recB]).getD 1 ""
      = "<tr style='background:#ffffff;'>" ++ (rowCells ([recA, recB].getD 1 ⟨[]⟩) ++ "</tr>") :=
  ⟨(c6_rows_and_parity "" "" [recA, recB]).2.2.2.1 0 (by decide) (by decide),
   (c6_rows_and_parity "" "" [recA, recB]).2.2.2.2 1 (by decide) (by decide)⟩

/-- C7: for a non-empty Record sequence the header cells are, in order,
the key sequence of the first Record, each wrapped in its `<th>` cell, and
the header row appears in the document. -/
theorem c7_headers_from_first_keys (bn today : String) (r : Record) (rest : List Record) :
    headers (r :: rest) = concatStrs (r.keys.map thCell) ∧
    (∀ k : String, thCell k
      = "<th style='padding:12px 14px; text-align:left; background:#1a1a2e; color:#fff; font-weight:600;'>" ++ (k ++ "</th>")) ∧
    strContains (build_report bn today (r :: rest))
      ("<thead><tr>" ++ (headers (r :: rest) ++ "</tr></thead>")) :=
  ⟨rfl, fun _ => rfl, contains_header_block bn today (r :: rest)⟩

/-- C8: the document renders the total revenue as `$` followed by the
fixed-point rendering with exactly two decimal places and comma thousands
separators for values at least 1000 (1234.5 renders as `1,234.50`), while
total sales and completed count are rendered as plain integers. -/
theorem c8_revenue_currency_format (bn today : String) (data : List Record) :
    strContains (build_report bn today data)
      ("$" ++ formatFixed2 (summarize data).total_revenue) ∧
    (∀ q : ℚ, formatFixed2 q
        = (if centsOf q < 0 then "-" else "") ++
          (groupDigits ((centsOf q).natAbs / 100) ++
            ("." ++ twoDigits ((centsOf q).natAbs % 100)))) ∧
    (∀ q : ℚ, (twoDigits ((centsOf q).natAbs % 100)).length = 2) ∧
    (∀ q : ℚ, 1000 ≤ q → ',' ∈ (groupDigits ((centsOf q).natAbs / 100)).data) ∧
    formatFixed2 (2469 / 2 : ℚ) = "1,234.50" ∧
    strContains (build_report bn today data) (toString (summarize data).total_sales) ∧
    strContains (build_report bn today data) (toString (summarize data).completed_count) :=
  ⟨contains_dollar_revenue bn today data, fun _ => rfl, fun _ => rfl,
    fun _ h => comma_in_revenue_group h, formatFixed2_1234p5,
    contains_sales_str bn today data, contains_completed_str bn today data⟩

/-- Witness for C8: a revenue of 2500 gets a thousands separator. -/
theorem c8_witness : ',' ∈ (groupDigits ((centsOf (2500 : ℚ)).natAbs / 100)).data :=
  (c8_revenue_currency_format "" "" []).2.2.2.1 2500 (by norm_num)

/-- C9: every cell value of every Record appears verbatim, unescaped,
inside its `<td>` cell in the document. -/
theorem c9_cell_values_verbatim (bn today : String) (data : List Record) (r : Record)
    (hr : r ∈ data) (v : String) (hv : v ∈ r.vals) :
    cellTd v = "<td style='padding:10px 14px; border-bottom:1px solid #eee;'>" ++ (v ++ "</td>") ∧
    strContains (build_report bn today data) (cellTd v) :=
  ⟨rfl, contains_cellTd bn today hr hv⟩

/-- Witness for C9 at the two-row fixture and the cell value `"A"`. -/
theorem c9_witness :
    cellTd "A" = "<td style='padding:10px 14px; border-bottom:1px solid #eee;'>" ++ ("A" ++ "</td>") ∧
    strContains (build_report "" "" [recA, recB]) (cellTd "A") :=
  c9_cell_values_verbatim "" "" [recA, recB] recA (by simp) "A" (by decide)

/-- C10: when the coercion fallback triggers, only the three summary
figures change (all to zero); the headers still come from the first
Record's keys and the table still holds one row per Record with the
original, unmodified cell values. -/
theorem c10_fallback_leaves_table_intact (bn today : String) (data : List Record)
    (h : salesInts data = none ∨ revenueLits data = none) :
    summarize data = ⟨0, 0, 0⟩ ∧
    build_report bn today data
      = buildHtml bn today "0" "0.00" "0" (headers data) (table_rows data) ∧
    (∀ r rest, data = r :: rest → headers data = concatStrs (r.keys.map thCell)) ∧
    (rowStrings data).length = data.length ∧
    (∀ i, i < data.length →
      (rowStrings data).getD i "" = rowTr i (data.getD i ⟨[]⟩)) ∧
    (∀ r, r ∈ data → ∀ v, v ∈ r.vals →
      strContains (build_report bn today data) (cellTd v)) := by
  have hsum : summarize data = ⟨0, 0, 0⟩ := by
    rcases h with h | h
    · simp [summarize, h]
    · cases hsi : salesInts data with
      | none => simp [summarize, hsi]
      | some ss => simp [summarize, hsi, h]
  refine ⟨hsum, ?_, ?_, rowsFrom_length data 0, ?_, ?_⟩
  · have h2 : build_report bn today data
        = buildHtml bn today (toString (0 : ℤ)) (formatFixed2 0) (toString (0 : ℕ))
          (headers data) (table_rows data) := by
      unfold build_report
      rw [hsum]
    rw [formatFixed2_zero] at h2
    exact h2
  · intro r rest hdata
    subst hdata
    rfl
  · intro i hi
    show (rowsFrom 0 data).getD i "" = _
    rw [rowsFrom_getD data 0 i hi, Nat.zero_add]
  · intro r hr v hv
    exact contains_cellTd bn today hr hv

/-- Witness for C10 at a one-row sequence with the non-numeric `Revenue`
value `"n/a"`. -/
theorem c10_witness :
    build_report "" "" [recBadRevenue]
      = buildHtml "" "" "0" "0.00" "0" (headers [recBadRevenue]) (table_rows [recBadRevenue]) :=
  (c10_fallback_leaves_table_intact "" "" [recBadRevenue] (Or.inr (by decide))).2.1

end AutoReport
